import Mathlib

/-!
Verification of `adcpy/transect_average.py` (the `DWR_transect_average` driver).

The driver's collaborators (`average_transects`, `transect_rotate`, the
`sd_drop` / `kernel_smooth` methods, the writers and the plotters) live in
modules outside this repository excerpt, so the embedding models the driver
itself: which calls it makes, with which arguments, in which order, and how
data and control flow between them.  Three complementary views of the same
source are used:

* an event-trace semantics (`refineTrace`, `groupTrace`, `batchTrace`)
  recording every external call the driver issues, with its arguments;
* a state-passing semantics (`rotStage`, `sdStage`, `smoothStage`, `refine`)
  over an abstract averaged-field type with abstract field operations,
  for claims about the value of the field;
* an exception-propagation model (`runBatch`) of the per-group loop, in
  which the body's calls may fail, mirroring the absence of any
  try/except in the loop of lines 85-145.

Numeric options are embedded as rationals (for the Python floats appearing
only in order comparisons and as call arguments) and integers.
-/

/-- The module-level options block of the script
(`adcpy/transect_average.py`, lines 29-49), as a configuration record. -/
structure Config where
  avg_dxy : ℚ
  avg_dz : ℚ
  avg_max_gap_m : ℚ
  avg_max_gap_minutes : ℚ
  avg_max_group_size : Nat
  avg_rotation : Option String
  avg_std_drop : ℚ
  avg_std_interp : Bool
  avg_smooth_kernel : Int
  avg_save_netcdf : Bool
  avg_save_csv : Bool
  avg_plot_xy : Bool
  avg_plot_avg_n_sd : Bool
  avg_plot_mean_vectors : Bool
  avg_plot_secondary_circulation : Bool
  avg_plot_UVW_velocity_array : Bool
  avg_plot_flow_summmary : Bool
  avg_save_plots : Bool
  avg_show_plots : Bool

/-- The default values of the options block (lines 29-49 of the source:
`avg_dxy = 2.0`, `avg_dz = 0.25`, `avg_max_gap_m = 30.0`,
`avg_max_gap_minutes = 20.0`, `avg_max_group_size = 6`,
`avg_rotation = 'Rozovski'`, `avg_std_drop = 3.0`, `avg_std_interp = True`,
`avg_smooth_kernel = 5`, all save/plot flags `True` except
`avg_show_plots = False`). -/
def defaultConfig : Config where
  avg_dxy := 2
  avg_dz := 1/4
  avg_max_gap_m := 30
  avg_max_gap_minutes := 20
  avg_max_group_size := 6
  avg_rotation := some "Rozovski"
  avg_std_drop := 3
  avg_std_interp := true
  avg_smooth_kernel := 5
  avg_save_netcdf := true
  avg_save_csv := true
  avg_plot_xy := true
  avg_plot_avg_n_sd := true
  avg_plot_mean_vectors := true
  avg_plot_secondary_circulation := true
  avg_plot_UVW_velocity_array := true
  avg_plot_flow_summmary := true
  avg_save_plots := true
  avg_show_plots := false

/-- One external call issued by the driver loop, with its arguments. -/
inductive Event where
  | plotXY (n : Nat)
  | savePlot (fname : String)
  | average (dxy dz : ℚ)
  | rotate (mode : String)
  | sdDrop (sd : ℚ) (sd_axis : String) (interp_holes : Bool)
  | kernelSmooth (kernel_size : Int)
  | writeCsv (fname : String)
  | writeNc (fname : String)
  | plotAvgNSd (uvw : Int)
  | plotMeanVectors (n : Nat)
  | plotSecondary (n : Nat)
  | plotUVW (n : Nat)
  | plotFlowSummary (n : Nat)
  | showPlots
  | closeAll
deriving DecidableEq

/-- The post-average refinement calls of one group (source lines 93-103):
`transect_rotate(avg, avg_rotation)` when `avg_rotation is not None`;
`avg.sd_drop(sd=3.0, sd_axis='elevation', interp_holes=avg_std_interp)` and
`avg.sd_drop(sd=3.0, sd_axis='ensemble', interp_holes=avg_std_interp)` when
`avg_std_drop > 0`; `avg.kernel_smooth(kernel_size=3)` when
`avg_smooth_kernel > 2`.  The literals `3.0` and `3` are hard-coded in the
source. -/
def refineTrace (cfg : Config) : List Event :=
  (match cfg.avg_rotation with
    | some mode => [Event.rotate mode]
    | none => []) ++
  (if cfg.avg_std_drop > 0 then
    [Event.sdDrop 3 "elevation" cfg.avg_std_interp,
     Event.sdDrop 3 "ensemble" cfg.avg_std_interp]
   else []) ++
  (if cfg.avg_smooth_kernel > 2 then [Event.kernelSmooth 3] else [])

/-- Recognises the rotation call among refinement events. -/
def isRotate : Event → Bool
  | Event.rotate _ => true
  | _ => false

/-- Recognises an `sd_drop` call among refinement events. -/
def isSdDrop : Event → Bool
  | Event.sdDrop _ _ _ => true
  | _ => false

/-- Recognises the `kernel_smooth` call among refinement events. -/
def isSmooth : Event → Bool
  | Event.kernelSmooth _ => true
  | _ => false

/-- Pipeline position of a refinement step: rotation before outlier
rejection before smoothing; everything else after. -/
def stepRank : Event → Nat
  | Event.rotate _ => 0
  | Event.sdDrop _ _ _ => 1
  | Event.kernelSmooth _ => 2
  | _ => 3

/-- The configuration of a run whose configured drop threshold is 2.0
instead of the default 3.0 (all other options default). -/
def cfgStdDrop2 : Config := { defaultConfig with avg_std_drop := 2 }

/-- The operations the driver invokes on an averaged field, abstract because
their implementations (`ADCPy_recipes.transect_rotate` and the `ADCP_Data`
methods `sd_drop`, `kernel_smooth`) live outside this repository excerpt.
The in-place Python mutations are modelled by state passing. -/
structure FieldOps (α : Type) where
  transect_rotate : String → α → α
  sd_drop : ℚ → String → Bool → α → α
  kernel_smooth : Int → α → α

/-- Source lines 93-94: `if avg_rotation is not None: avg =
transect_rotate(avg, avg_rotation)`. -/
def rotStage {α : Type} (ops : FieldOps α) (cfg : Config) (avg : α) : α :=
  match cfg.avg_rotation with
  | some mode => ops.transect_rotate mode avg
  | none => avg

/-- Source lines 95-101: `if avg_std_drop > 0:` then the two `sd_drop`
calls (elevation axis first, then ensemble axis), each with the hard-coded
`sd=3.0` and `interp_holes=avg_std_interp`. -/
def sdStage {α : Type} (ops : FieldOps α) (cfg : Config) (avg : α) : α :=
  if cfg.avg_std_drop > 0 then
    ops.sd_drop 3 "ensemble" cfg.avg_std_interp
      (ops.sd_drop 3 "elevation" cfg.avg_std_interp avg)
  else avg

/-- Source lines 102-103: `if avg_smooth_kernel > 2:
avg.kernel_smooth(kernel_size = 3)`. -/
def smoothStage {α : Type} (ops : FieldOps α) (cfg : Config) (avg : α) : α :=
  if cfg.avg_smooth_kernel > 2 then ops.kernel_smooth 3 avg else avg

/-- The whole post-average refinement of one group (source lines 93-103):
rotation stage, then rejection stage, then smoothing stage. -/
def refine {α : Type} (ops : FieldOps α) (cfg : Config) (avg : α) : α :=
  smoothStage ops cfg (sdStage ops cfg (rotStage ops cfg avg))

/-- Concrete field operations on `Nat` used to instantiate `FieldOps` in
closed evaluations; each operation visibly changes its argument. -/
def natOps : FieldOps Nat where
  transect_rotate := fun _ a => a + 100
  sd_drop := fun _ _ _ a => a + 10
  kernel_smooth := fun _ a => a + 1

/-- The per-group loop of source lines 85-145: the body's external calls
may fail (a raised Python exception, e.g. a degenerate grid inside
`average_transects`), and the loop contains no try/except, so a failure
propagates out of `DWR_transect_average` at once.  `process n g` is the
whole body for group `g` at loop counter `n`. -/
def runBatch {G A E : Type} (process : Nat → G → Except E A) :
    Nat → List G → Except E (List A)
  | _, [] => Except.ok []
  | n, g :: rest =>
    match process n g with
    | Except.error e => Except.error e
    | Except.ok a =>
      match runBatch process (n + 1) rest with
      | Except.error e => Except.error e
      | Except.ok as => Except.ok (a :: as)

/-- A per-group body whose first group fails with a degenerate grid and
whose later groups succeed, returning their loop counter. -/
def failFirst : Nat → Unit → Except String Nat :=
  fun n _ => if n = 0 then Except.error "degenerate grid" else Except.ok n

/-- Little-endian base-10 digits with explicit fuel, so that the kernel can
evaluate it; `natDigitsAux fuel n` is the digit list of `n` when
`n ≤ fuel`. -/
def natDigitsAux : Nat → Nat → List Nat
  | 0, _ => []
  | _ + 1, 0 => []
  | fuel + 1, n + 1 => ((n + 1) % 10) :: natDigitsAux fuel ((n + 1) / 10)

/-- Little-endian base-10 digits of a natural number (executable; agrees
with `Nat.digits 10`, see `natDigits_eq_digits`). -/
def natDigits (n : Nat) : List Nat := natDigitsAux n n

/-- The character list of Python's `'%03i' % n` for a non-negative `n`:
the decimal digits of `n`, zero-padded on the left to at least width 3. -/
def pad3Chars (n : Nat) : List Char :=
  List.replicate (3 - (natDigits n).length) '0' ++
    ((natDigits n).reverse.map Nat.digitChar)

/-- Python's `'%03i' % n` as a string (e.g. `pad3 0 = "000"`,
`pad3 12 = "012"`, `pad3 1234 = "1234"`). -/
def pad3 (n : Nat) : String := String.mk (pad3Chars n)

/-- `os.path.join(outpath, fname)` for the posix paths used by the
driver. -/
def pjoin (outpath fname : String) : String := outpath ++ "/" ++ fname

/-- The group-specific part of an output file name:
`'group%03i' % n` followed by the artifact-specific remainder. -/
def groupName (n : Nat) (sfx : String) : String := "group" ++ pad3 n ++ sfx

/-- The letter `'UVW'[i]` used in the avg_n_sd plot file names
(source lines 112-116). -/
def uvwLetter : Nat → String
  | 0 => "U"
  | 1 => "V"
  | _ => "W"

/-- The artifact-specific name remainders a group's outputs can carry, in
the order the driver writes them (source lines 90, 106, 108, 116, 121,
127, 134, 140). -/
def allSfx : List String :=
  ["_xy_lines.png", "_velocity.csv", ".nc",
   "_U_avg_n_sd.png", "_V_avg_n_sd.png", "_W_avg_n_sd.png",
   "_mean_velocity.png", "_secondary_circulation.png",
   "_UVW_velocity.png", "_Flow_Summary.png"]

/-- The file names written for the group at loop counter `n` (the
`plt.savefig`, `write_csv_velocity` and `write_nc` targets of source lines
87-140), in source order. -/
def groupArtifacts (cfg : Config) (outpath : String) (n : Nat) : List String :=
  (if cfg.avg_plot_xy && cfg.avg_save_plots then
    [pjoin outpath (groupName n "_xy_lines.png")] else []) ++
  (if cfg.avg_save_csv then
    [pjoin outpath (groupName n "_velocity.csv")] else []) ++
  (if cfg.avg_save_netcdf then
    [pjoin outpath (groupName n ".nc")] else []) ++
  (if cfg.avg_plot_avg_n_sd && cfg.avg_save_plots then
    (List.range 3).map
      (fun i => pjoin outpath (groupName n ("_" ++ uvwLetter i ++ "_avg_n_sd.png")))
    else []) ++
  (if cfg.avg_plot_mean_vectors && cfg.avg_save_plots then
    [pjoin outpath (groupName n "_mean_velocity.png")] else []) ++
  (if cfg.avg_plot_secondary_circulation && cfg.avg_save_plots then
    [pjoin outpath (groupName n "_secondary_circulation.png")] else []) ++
  (if cfg.avg_plot_UVW_velocity_array && cfg.avg_save_plots then
    [pjoin outpath (groupName n "_UVW_velocity.png")] else []) ++
  (if cfg.avg_plot_flow_summmary && cfg.avg_save_plots then
    [pjoin outpath (groupName n "_Flow_Summary.png")] else [])

/-- Numeric value of a decimal digit character (`'0'` ↦ 0, …, `'9'` ↦ 9). -/
def charVal (c : Char) : Nat := c.toNat - 48

/-- The number denoted by a big-endian list of decimal digit characters. -/
def listVal (l : List Char) : Nat := Nat.ofDigits 10 (l.map charVal).reverse

/-- Holds when a character list does not start with a decimal digit (in
particular when it is empty). -/
def headNoDigit : List Char → Bool
  | [] => true
  | c :: _ => !c.isDigit

/-- The loop counter values assigned by the loop of source lines 85-145
(`grp_num = 0` before the loop, `grp_num += 1` at the end of each
iteration), starting from counter `n`. -/
def loopIndices {G : Type} : Nat → List G → List Nat
  | _, [] => []
  | n, _ :: rest => n :: loopIndices (n + 1) rest

/-- The group numbers assigned over a whole run: counter values of the
loop started at `grp_num = 0`. -/
def batchIndices {G : Type} (groups : List G) : List Nat :=
  loopIndices 0 groups

/-- The avg_n_sd plotting loop of source lines 111-116: for `i` in
`range(3)`, call `plot_avg_n_sd(avg, i, 0.05)` and, when saving, write
`'group%03i_%s_avg_n_sd.png' % (grp_num, 'UVW'[i])`. -/
def avgNSdTrace (cfg : Config) (outpath : String) (n : Nat) : List Event :=
  (List.range 3).flatMap (fun i =>
    Event.plotAvgNSd (Int.ofNat i) ::
      (if cfg.avg_save_plots then
        [Event.savePlot
          (pjoin outpath (groupName n ("_" ++ uvwLetter i ++ "_avg_n_sd.png")))]
       else []))

/-- Every external call issued by one iteration of the group loop (source
lines 86-144), in source order: xy plot, `average_transects`, the
refinement calls, CSV and NetCDF writers, the five plot blocks, `show`,
`close`. -/
def groupTrace (cfg : Config) (outpath : String) (n : Nat) : List Event :=
  (if cfg.avg_plot_xy then
    Event.plotXY n ::
      (if cfg.avg_save_plots then
        [Event.savePlot (pjoin outpath (groupName n "_xy_lines.png"))] else [])
   else []) ++
  [Event.average cfg.avg_dxy cfg.avg_dz] ++
  refineTrace cfg ++
  (if cfg.avg_save_csv then
    [Event.writeCsv (pjoin outpath (groupName n "_velocity.csv"))] else []) ++
  (if cfg.avg_save_netcdf then
    [Event.writeNc (pjoin outpath (groupName n ".nc"))] else []) ++
  (if cfg.avg_plot_avg_n_sd then avgNSdTrace cfg outpath n else []) ++
  (if cfg.avg_plot_mean_vectors then
    Event.plotMeanVectors n ::
      (if cfg.avg_save_plots then
        [Event.savePlot (pjoin outpath (groupName n "_mean_velocity.png"))] else [])
   else []) ++
  (if cfg.avg_plot_secondary_circulation then
    Event.plotSecondary n ::
      (if cfg.avg_save_plots then
        [Event.savePlot (pjoin outpath (groupName n "_secondary_circulation.png"))] else [])
   else []) ++
  (if cfg.avg_plot_UVW_velocity_array then
    Event.plotUVW n ::
      (if cfg.avg_save_plots then
        [Event.savePlot (pjoin outpath (groupName n "_UVW_velocity.png"))] else [])
   else []) ++
  (if cfg.avg_plot_flow_summmary then
    Event.plotFlowSummary n ::
      (if cfg.avg_save_plots then
        [Event.savePlot (pjoin outpath (groupName n "_Flow_Summary.png"))] else [])
   else []) ++
  (if cfg.avg_show_plots then [Event.showPlots] else []) ++
  [Event.closeAll]

/-- The calls of the whole group loop for `k` groups starting at loop
counter `n`: the driver runs every group's body in turn, with no
configuration check before or inside the loop. -/
def batchTrace (cfg : Config) (outpath : String) : Nat → Nat → List Event
  | _, 0 => []
  | n, k + 1 => groupTrace cfg outpath n ++ batchTrace cfg outpath (n + 1) k

/-- The calls of a whole `DWR_transect_average` run over `numGroups`
groups (loop counter starts at 0). -/
def runTrace (cfg : Config) (outpath : String) (numGroups : Nat) : List Event :=
  batchTrace cfg outpath 0 numGroups

/-- A configuration with an invalid (zero) horizontal bin resolution, all
other options default. -/
def cfgBadRes : Config := { defaultConfig with avg_dxy := 0 }

/-- A Python value as far as the `uvw` parameter of `plot_avg_n_sd` is
concerned: an integer or a string (the docstring advertises the strings
`'U'`, `'V'`, `'W'`). -/
inductive PyVal where
  | int (n : Int)
  | str (s : String)
deriving DecidableEq

/-- Python's `==` between such a value and an integer literal: integers
compare numerically, a string never equals an integer. -/
def pyEqInt : PyVal → Int → Bool
  | PyVal.int m, n => m == n
  | PyVal.str _, _ => false

/-- The label selection of `plot_avg_n_sd` (source lines 164-169):
`if uvw == 0: v_str = 'U' elif uvw == 1: v_str = 'V' else: v_str = 'W'`. -/
def v_str (uvw : PyVal) : String :=
  if pyEqInt uvw 0 then "U" else if pyEqInt uvw 1 then "V" else "W"

/-- The `uvw` arguments the driver passes to `plot_avg_n_sd` (source lines
113-114): `for i in range(3): plot_avg_n_sd(avg, i, 0.05)`. -/
def driverUvwArgs : List PyVal :=
  (List.range 3).map (fun i => PyVal.int (Int.ofNat i))

/-- C4: in every configuration, the refinement calls issued for a group are
rank-sorted: every rotation call precedes every sd_drop call, and every
sd_drop call precedes every kernel_smooth call — no enabled later step runs
before an enabled earlier step. -/
theorem refineTrace_ordered (cfg : Config) :
    (refineTrace cfg).Pairwise (fun a b => stepRank a ≤ stepRank b) := by
  unfold refineTrace
  cases cfg.avg_rotation <;>
    by_cases h1 : cfg.avg_std_drop > 0 <;>
      by_cases h2 : cfg.avg_smooth_kernel > 2 <;>
        simp [h1, h2, stepRank, List.Pairwise]

/-- C5: whenever outlier rejection is enabled (`avg_std_drop > 0`), exactly
two `sd_drop` calls are issued, first along the `elevation` axis and then
along the `ensemble` axis, and both receive the configured `avg_std_interp`
as their `interp_holes` argument. -/
theorem sdDrop_axes_and_interp (cfg : Config) (h : cfg.avg_std_drop > 0) :
    (refineTrace cfg).filter isSdDrop =
      [Event.sdDrop 3 "elevation" cfg.avg_std_interp,
       Event.sdDrop 3 "ensemble" cfg.avg_std_interp] := by
  unfold refineTrace
  cases cfg.avg_rotation <;>
    by_cases h2 : cfg.avg_smooth_kernel > 2 <;>
      simp [h, h2, isSdDrop]

/-- C5 witness: at the default configuration the two sd_drop calls are
elevation-first then ensemble, both with `interp_holes = True`. -/
theorem sdDrop_axes_and_interp_witness :
    (refineTrace defaultConfig).filter isSdDrop =
      [Event.sdDrop 3 "elevation" true, Event.sdDrop 3 "ensemble" true] :=
  sdDrop_axes_and_interp defaultConfig (by norm_num [defaultConfig])

/-- C6: in every configuration, the rotation calls of a group's refinement
are exactly one call with the configured mode when `avg_rotation` is not
`None`, and none otherwise. -/
theorem rotate_iff_configured (cfg : Config) :
    (refineTrace cfg).filter isRotate =
      (cfg.avg_rotation.map Event.rotate).toList := by
  unfold refineTrace
  cases cfg.avg_rotation <;>
    by_cases h1 : cfg.avg_std_drop > 0 <;>
      by_cases h2 : cfg.avg_smooth_kernel > 2 <;>
        simp [h1, h2, isRotate]

/-- C1: the code contradicts the claim (and its own option comment): in a
run configured with `avg_std_drop = 2.0` the rejection step is enabled, but
both sd_drop calls receive the hard-coded literal `3.0` as their `sd`
threshold, and no sd_drop call receives the configured value `2.0`. -/
theorem sdDrop_threshold_hardcoded :
    cfgStdDrop2.avg_std_drop = 2 ∧ cfgStdDrop2.avg_std_drop > 0 ∧
    (refineTrace cfgStdDrop2).filter isSdDrop =
      [Event.sdDrop 3 "elevation" true, Event.sdDrop 3 "ensemble" true] ∧
    Event.sdDrop cfgStdDrop2.avg_std_drop "elevation" true ∉ refineTrace cfgStdDrop2 ∧
    Event.sdDrop cfgStdDrop2.avg_std_drop "ensemble" true ∉ refineTrace cfgStdDrop2 := by
  refine ⟨rfl, by norm_num [cfgStdDrop2, defaultConfig], ?_, ?_, ?_⟩ <;>
    decide

/-- C2: the code contradicts the claim (and its own option comment): at the
default configuration `avg_smooth_kernel = 5` the smoothing step is
enabled, but the kernel_smooth call receives the hard-coded literal `3` as
`kernel_size`, not the configured `5`. -/
theorem kernelSmooth_size_hardcoded :
    defaultConfig.avg_smooth_kernel = 5 ∧
    (refineTrace defaultConfig).filter isSmooth = [Event.kernelSmooth 3] ∧
    Event.kernelSmooth defaultConfig.avg_smooth_kernel ∉
      refineTrace defaultConfig := by
  refine ⟨rfl, ?_, ?_⟩ <;> decide

/-- C9: whenever the configured smoothing kernel size is at most 1, the
smoothing stage leaves the averaged field unchanged, whatever the field and
the field operations. -/
theorem smoothStage_noop {α : Type} (ops : FieldOps α) (cfg : Config)
    (avg : α) (h : cfg.avg_smooth_kernel ≤ 1) :
    smoothStage ops cfg avg = avg := by
  unfold smoothStage
  rw [if_neg]
  omega

/-- C9 witness: with kernel size 1 and field operations that visibly change
their argument, the smoothing stage returns the field unchanged. -/
theorem smoothStage_noop_witness :
    ({ defaultConfig with avg_smooth_kernel := 1 } : Config).avg_smooth_kernel ≤ 1 ∧
    smoothStage natOps { defaultConfig with avg_smooth_kernel := 1 } 7 = 7 :=
  ⟨by decide,
   smoothStage_noop natOps { defaultConfig with avg_smooth_kernel := 1 } 7 (by decide)⟩

/-- C3 counterexample: with two groups of which the first fails (degenerate
grid), the batch halts with that error; in particular it does not complete
with the second group's output, so the remaining group is not processed to
completion, contrary to the claim. -/
theorem runBatch_halts_on_failure :
    runBatch failFirst 0 [(), ()] = Except.error "degenerate grid" ∧
    runBatch failFirst 0 [(), ()] ≠ Except.ok [1] :=
  ⟨rfl, fun h => Except.noConfusion h⟩

/-- C3 as amended: the loop of lines 85-145 contains no exception handling,
so a failure in one group's body propagates out immediately: the batch
result is that error and no later group is processed. -/
theorem runBatch_error_propagates {G A E : Type}
    (process : Nat → G → Except E A) (n : Nat) (g : G) (rest : List G)
    (e : E) (h : process n g = Except.error e) :
    runBatch process n (g :: rest) = Except.error e := by
  unfold runBatch
  rw [h]

/-- C3 amended witness: the failure of group 0 is the result of the whole
two-group batch. -/
theorem runBatch_error_propagates_witness :
    failFirst 0 () = Except.error "degenerate grid" ∧
    runBatch failFirst 0 [(), ()] = Except.error "degenerate grid" :=
  ⟨rfl, runBatch_error_propagates failFirst 0 () [()] "degenerate grid" rfl⟩

theorem natDigitsAux_eq_digits :
    ∀ fuel n : Nat, n ≤ fuel → natDigitsAux fuel n = Nat.digits 10 n := by
  intro fuel
  induction fuel with
  | zero =>
    intro n hn
    interval_cases n
    simp [natDigitsAux]
  | succ f ih =>
    intro n hn
    match n with
    | 0 => simp [natDigitsAux]
    | m + 1 =>
      rw [natDigitsAux, ih ((m + 1) / 10) (by omega),
        Nat.digits_def' (by norm_num : (1:ℕ) < 10) (Nat.succ_pos m)]

theorem natDigits_eq_digits (n : Nat) : natDigits n = Nat.digits 10 n :=
  natDigitsAux_eq_digits n n le_rfl

theorem ofDigits_replicate_zero (k : Nat) :
    Nat.ofDigits 10 (List.replicate k 0) = 0 := by
  induction k with
  | zero => simp [Nat.ofDigits]
  | succ m ih => simp [List.replicate_succ, Nat.ofDigits_cons, ih]

theorem charVal_digitChar : ∀ d : Nat, d < 10 → charVal (Nat.digitChar d) = d := by
  decide

theorem digitChar_isDigit : ∀ d : Nat, d < 10 → (Nat.digitChar d).isDigit = true := by
  decide

/-- Decoding a zero-padded decimal rendering recovers the number. -/
theorem listVal_pad3Chars (n : Nat) : listVal (pad3Chars n) = n := by
  unfold listVal pad3Chars
  rw [natDigits_eq_digits]
  have hmap : (Nat.digits 10 n).map (charVal ∘ Nat.digitChar) = Nat.digits 10 n := by
    rw [show charVal ∘ Nat.digitChar = fun d => charVal (Nat.digitChar d) from rfl]
    rw [List.map_congr_left (g := id) ?_, List.map_id]
    intro d hd
    exact charVal_digitChar d (Nat.digits_lt_base (by norm_num) hd)
  rw [List.map_append, List.map_replicate, List.map_map, List.reverse_append,
    List.reverse_replicate, ← List.map_reverse, List.reverse_reverse, hmap,
    Nat.ofDigits_append, Nat.ofDigits_digits,
    show charVal '0' = 0 from rfl, ofDigits_replicate_zero]
  simp

/-- Zero-padded decimal renderings of distinct numbers are distinct. -/
theorem pad3Chars_inj {m n : Nat} (h : pad3Chars m = pad3Chars n) : m = n := by
  have h2 := congrArg listVal h
  rwa [listVal_pad3Chars, listVal_pad3Chars] at h2

theorem pad3Chars_digits (n : Nat) :
    ∀ c ∈ pad3Chars n, c.isDigit = true := by
  intro c hc
  rw [pad3Chars, List.mem_append] at hc
  rcases hc with hc | hc
  · rw [List.eq_of_mem_replicate hc]
    decide
  · rw [List.mem_map] at hc
    obtain ⟨d, hd, rfl⟩ := hc
    rw [List.mem_reverse, natDigits_eq_digits] at hd
    exact digitChar_isDigit d (Nat.digits_lt_base (by norm_num) hd)

/-- Two all-digit blocks followed by remainders that do not start with a
digit can only concatenate to the same list if the blocks agree. -/
theorem digit_block_cancel :
    ∀ (A B s t : List Char), (∀ c ∈ A, c.isDigit = true) →
      (∀ c ∈ B, c.isDigit = true) → headNoDigit s = true → headNoDigit t = true →
      A ++ s = B ++ t → A = B := by
  intro A
  induction A with
  | nil =>
    intro B s t _ hB hs _ h
    cases B with
    | nil => rfl
    | cons b B2 =>
      exfalso
      simp only [List.nil_append] at h
      rw [h] at hs
      have hb : b.isDigit = true := hB b (by simp)
      simp [headNoDigit, hb] at hs
  | cons a A2 ih =>
    intro B s t hA hB hs ht h
    cases B with
    | nil =>
      exfalso
      simp only [List.nil_append] at h
      rw [← h] at ht
      have ha : a.isDigit = true := hA a (by simp)
      simp [headNoDigit, ha] at ht
    | cons b B2 =>
      simp only [List.cons_append, List.cons.injEq] at h
      obtain ⟨rfl, h2⟩ := h
      rw [ih B2 s t (fun c hc => hA c (by simp [hc])) (fun c hc => hB c (by simp [hc])) hs ht h2]

/-- Within one run (same output path), output names built from distinct
group numbers differ, whatever the artifact-specific remainders, as long
as those remainders do not start with a digit. -/
theorem name_inj {p : String} {m n : Nat} {s t : String}
    (hs : headNoDigit s.data = true) (ht : headNoDigit t.data = true)
    (h : pjoin p (groupName m s) = pjoin p (groupName n t)) : m = n := by
  unfold pjoin groupName at h
  have hd := congrArg String.data h
  simp only [String.data_append] at hd
  have hd2 : pad3Chars m ++ s.data = pad3Chars n ++ t.data := by
    simp only [pad3, List.append_assoc] at hd
    simpa using List.append_cancel_left hd
  exact pad3Chars_inj
    (digit_block_cancel _ _ _ _ (pad3Chars_digits m) (pad3Chars_digits n) hs ht hd2)

theorem allSfx_headNoDigit : ∀ s ∈ allSfx, headNoDigit s.data = true := by
  decide

theorem mem_ite_nil {α : Type} {c : Prop} [Decidable c] {l : List α} {a : α}
    (h : a ∈ if c then l else []) : a ∈ l := by
  by_cases hc : c
  · rwa [if_pos hc] at h
  · rw [if_neg hc] at h
    exact absurd h (List.not_mem_nil a)

/-- Every output file of the group at counter `n` is the output path
joined with `'group%03i' % n` followed by one of the fixed remainders. -/
theorem groupArtifacts_shape (cfg : Config) (outpath : String) (n : Nat)
    (f : String) (h : f ∈ groupArtifacts cfg outpath n) :
    ∃ s ∈ allSfx, f = pjoin outpath (groupName n s) := by
  simp only [groupArtifacts, List.mem_append] at h
  rcases h with ((((((h | h) | h) | h) | h) | h) | h) | h
  · have h2 := mem_ite_nil h
    simp only [List.mem_singleton] at h2
    exact ⟨"_xy_lines.png", by decide, h2⟩
  · have h2 := mem_ite_nil h
    simp only [List.mem_singleton] at h2
    exact ⟨"_velocity.csv", by decide, h2⟩
  · have h2 := mem_ite_nil h
    simp only [List.mem_singleton] at h2
    exact ⟨".nc", by decide, h2⟩
  · have h2 := mem_ite_nil h
    simp only [List.mem_map, List.mem_range] at h2
    obtain ⟨i, hi, rfl⟩ := h2
    interval_cases i
    · exact ⟨"_U_avg_n_sd.png", by decide, rfl⟩
    · exact ⟨"_V_avg_n_sd.png", by decide, rfl⟩
    · exact ⟨"_W_avg_n_sd.png", by decide, rfl⟩
  · have h2 := mem_ite_nil h
    simp only [List.mem_singleton] at h2
    exact ⟨"_mean_velocity.png", by decide, h2⟩
  · have h2 := mem_ite_nil h
    simp only [List.mem_singleton] at h2
    exact ⟨"_secondary_circulation.png", by decide, h2⟩
  · have h2 := mem_ite_nil h
    simp only [List.mem_singleton] at h2
    exact ⟨"_UVW_velocity.png", by decide, h2⟩
  · have h2 := mem_ite_nil h
    simp only [List.mem_singleton] at h2
    exact ⟨"_Flow_Summary.png", by decide, h2⟩

theorem loopIndices_eq_range' {G : Type} :
    ∀ (l : List G) (k : Nat), loopIndices k l = List.range' k l.length := by
  intro l
  induction l with
  | nil => intro k; simp [loopIndices]
  | cons g rest ih =>
    intro k
    simp [loopIndices, ih, List.range'_succ]

/-- C7: over a run, groups are numbered consecutively from 0 in processing
order (the loop counter `grp_num`), and two distinct groups never write an
artifact (NetCDF, CSV, or plot image) under the same name: their names
embed distinct zero-padded group numbers. -/
theorem group_numbering_and_artifact_uniqueness :
    (∀ (G : Type) (groups : List G),
      batchIndices groups = List.range groups.length) ∧
    (∀ (cfg : Config) (outpath : String) (m n : Nat), m ≠ n →
      ∀ f ∈ groupArtifacts cfg outpath m, f ∉ groupArtifacts cfg outpath n) := by
  constructor
  · intro G groups
    rw [batchIndices, loopIndices_eq_range', List.range_eq_range']
  · intro cfg outpath m n hmn f hm hn
    obtain ⟨s, hs, rfl⟩ := groupArtifacts_shape cfg outpath m f hm
    obtain ⟨t, ht, heq⟩ := groupArtifacts_shape cfg outpath n _ hn
    exact hmn (name_inj (allSfx_headNoDigit s hs) (allSfx_headNoDigit t ht) heq)

/-- C7 witness: a three-group run is numbered 0, 1, 2, and the CSV written
by group 0 under the default configuration is not among the artifacts of
group 1. -/
theorem group_numbering_and_artifact_uniqueness_witness :
    batchIndices [(), (), ()] = [0, 1, 2] ∧
    pjoin "out" (groupName 0 "_velocity.csv") ∉
      groupArtifacts defaultConfig "out" 1 :=
  ⟨by decide,
   group_numbering_and_artifact_uniqueness.2 defaultConfig "out" 0 1
     (by decide) (pjoin "out" (groupName 0 "_velocity.csv")) (by decide)⟩

/-- C8 counterexample: with a zero horizontal bin resolution — an invalid
configuration — and one group, the run does not fail before group
processing: the first group's body runs, and in particular the averaging
call is made, receiving the invalid resolution unchecked. -/
theorem invalid_config_reaches_groups :
    cfgBadRes.avg_dxy = 0 ∧
    Event.average cfgBadRes.avg_dxy cfgBadRes.avg_dz ∈ runTrace cfgBadRes "out" 1 := by
  refine ⟨rfl, ?_⟩
  unfold runTrace batchTrace
  simp [groupTrace]

/-- C8 as amended: the driver performs no configuration validation at all;
for every configuration (valid or not) and every non-empty group list, the
group loop runs and passes `avg_dxy` and `avg_dz` to the per-group
averaging call as given. -/
theorem no_config_validation (cfg : Config) (outpath : String) (k : Nat)
    (hk : 0 < k) :
    Event.average cfg.avg_dxy cfg.avg_dz ∈ runTrace cfg outpath k := by
  match k, hk with
  | j + 1, _ =>
    unfold runTrace batchTrace
    simp [groupTrace]

/-- C8 amended witness: the averaging call of a one-group run at the
default configuration receives the configured resolutions. -/
theorem no_config_validation_witness :
    Event.average defaultConfig.avg_dxy defaultConfig.avg_dz ∈
      runTrace defaultConfig "out" 1 :=
  no_config_validation defaultConfig "out" 1 (by decide)

/-- C10: `plot_avg_n_sd` selects the plotted component label by integer
comparison, not by the docstring's strings: integer 0 yields `'U'`,
integer 1 yields `'V'`, and every other value — including 2, negatives and
any string — falls through to `'W'`; and the driver calls it with the
integers 0, 1, 2. -/
theorem plot_avg_n_sd_label_selection :
    (∀ v : PyVal, v_str v =
      if v = PyVal.int 0 then "U"
      else if v = PyVal.int 1 then "V" else "W") ∧
    v_str (PyVal.str "U") = "W" ∧ v_str (PyVal.str "V") = "W" ∧
    v_str (PyVal.int 2) = "W" ∧ v_str (PyVal.int (-1)) = "W" ∧
    driverUvwArgs = [PyVal.int 0, PyVal.int 1, PyVal.int 2] := by
  refine ⟨?_, by decide, by decide, by decide, by decide, by decide⟩
  intro v
  cases v with
  | int k =>
    by_cases h0 : k = 0 <;> by_cases h1 : k = 1 <;>
      simp [v_str, pyEqInt, h0, h1]
  | str s => simp [v_str, pyEqInt]
